import Mathlib

/-!
Shallow embedding of the NovaInvoice invoicing application (src/main.py) and
verification of its domain-consistency claims: field validation, invoice
total maintenance, deletion policy, and the CSV bulk-import pipeline.

Conventions of the embedding:
* SQLite REAL columns are modelled as rationals (ℚ); TEXT as String; INTEGER
  as Int (Nat for the AUTOINCREMENT surrogate ids, which SQLite assigns
  monotonically starting from 1).
* Python values flowing through the generic validators are modelled by the
  inductive PyVal, carrying just what the validators inspect: truthiness and
  the isinstance(_, int) test.
* Python string helpers (str.strip, float(), int(), re.match on the e-mail
  pattern, datetime.strptime with format YYYY-MM-DD) are re-implemented over
  List Char with structural recursion so that every definition evaluates by
  kernel reduction.  float()/int() are modelled on plain decimal literals
  (optional sign, digits, at most one dot), which covers every literal the
  program's validators admit on the inputs in scope.
-/

/-- Python truthiness and type tests for values reaching the row validators
(integers, strings, None). -/
inductive PyVal
  | vInt (n : Int)
  | vStr (s : String)
  | vNone
deriving DecidableEq

/-- Python truthiness: nonzero for int, nonempty for str, False for None. -/
def PyVal.truthy : PyVal → Bool
  | .vInt n => n != 0
  | .vStr s => s != ""
  | .vNone => false

/-- Python isinstance(v, int). -/
def PyVal.isInstInt : PyVal → Bool
  | .vInt _ => true
  | _ => false

/-- Python str.strip() (whitespace from both ends), used by the validators
before the required-field emptiness test. -/
def pyStrip (s : String) : String :=
  String.mk (((s.toList.dropWhile Char.isWhitespace).reverse.dropWhile
    Char.isWhitespace).reverse)

/-- Numeric value of a digit string (most significant first). -/
def digitsToNat (cs : List Char) : Nat :=
  cs.foldl (fun a c => a * 10 + (c.toNat - 48)) 0

/-- Body of a Python float literal after the optional sign: digits and at
most one dot, with at least one digit (models float() on plain decimal
literals; main.py line 96-101, is_float). -/
def floatBody (cs : List Char) : Bool :=
  !cs.isEmpty && cs.all (fun c => c.isDigit || c == '.') &&
    decide (cs.countP (fun c => c == '.') ≤ 1) && cs.any Char.isDigit

/-- Models is_float (main.py lines 96-101): float(v) succeeds.  Python's
float() strips surrounding whitespace and allows a leading sign. -/
def is_float (v : String) : Bool :=
  match (pyStrip v).toList with
  | '+' :: rest => floatBody rest
  | '-' :: rest => floatBody rest
  | cs => floatBody cs

/-- Body of a Python int literal after the optional sign: one or more
digits. -/
def intBody (cs : List Char) : Bool :=
  !cs.isEmpty && cs.all Char.isDigit

/-- Models is_int (main.py lines 103-108): int(v) succeeds on the string v. -/
def is_int (v : String) : Bool :=
  match (pyStrip v).toList with
  | '+' :: rest => intBody rest
  | '-' :: rest => intBody rest
  | cs => intBody cs

/-- Rational value of a decimal literal body (integer part, optional dot,
fractional part). -/
def decBody (cs : List Char) : ℚ :=
  let ip := cs.takeWhile (fun c => c != '.')
  let fp := (cs.dropWhile (fun c => c != '.')).drop 1
  (digitsToNat ip : ℚ) + (digitsToNat fp : ℚ) / ((10 : ℚ) ^ fp.length)

/-- Models Python float(v) on a decimal-literal string (the value stored in
a REAL column). -/
def pyFloat (v : String) : ℚ :=
  match (pyStrip v).toList with
  | '+' :: rest => decBody rest
  | '-' :: rest => - decBody rest
  | cs => decBody cs

/-- Models Python int(v) on an integer-literal string. -/
def pyInt (v : String) : Int :=
  match (pyStrip v).toList with
  | '+' :: rest => (digitsToNat rest : Int)
  | '-' :: rest => - (digitsToNat rest : Int)
  | cs => (digitsToNat cs : Int)

/-- Matching of EMAIL_RE (main.py line 94): the pattern anchors the whole
string to one-or-more non-at characters, an at sign, one-or-more non-at
characters, a dot, and one-or-more non-at characters.  Equivalently: the
string holds exactly one at sign, preceded by at least one character, and
some dot lies strictly between the at sign and the last position. -/
def emailMatch (s : String) : Bool :=
  let cs := s.toList
  let n := cs.length
  decide (cs.countP (fun c => c == '@') = 1) &&
    (List.range n).any (fun i =>
      (cs.getD i ' ' == '@') && decide (0 < i) &&
        (List.range n).any (fun j =>
          (cs.getD j ' ' == '.') && decide (i + 1 < j) && decide (j + 1 < n)))

/-- Models validate_email (main.py lines 110-113): an empty value passes,
otherwise the value must match EMAIL_RE. -/
def validate_email (email : String) : Bool :=
  if email = "" then true else emailMatch email

/-- Split a character list at every dash, keeping empty groups. -/
def splitDash : List Char → List (List Char)
  | [] => [[]]
  | c :: rest =>
    let r := splitDash rest
    if c = '-' then [] :: r
    else
      match r with
      | [] => [[c]]
      | g :: gs => (c :: g) :: gs

/-- Days of a month, with the Gregorian leap-year rule (as enforced by
datetime.strptime). -/
def daysInMonth (y m : Nat) : Nat :=
  if m = 2 then (if (y % 4 = 0 ∧ y % 100 ≠ 0) ∨ y % 400 = 0 then 29 else 28)
  else if m = 4 ∨ m = 6 ∨ m = 9 ∨ m = 11 then 30 else 31

/-- Models datetime.strptime(s, "%Y-%m-%d") succeeding: three dash-separated
digit groups (year up to four digits, month and day up to two), month in
1..12 and day within the month. -/
def isoDateOk (s : String) : Bool :=
  match splitDash s.toList with
  | [ys, ms, ds] =>
    (decide (1 ≤ ys.length) && decide (ys.length ≤ 4) && ys.all Char.isDigit) &&
      (decide (1 ≤ ms.length) && decide (ms.length ≤ 2) && ms.all Char.isDigit) &&
      (decide (1 ≤ ds.length) && decide (ds.length ≤ 2) && ds.all Char.isDigit) &&
      (decide (1 ≤ digitsToNat ms) && decide (digitsToNat ms ≤ 12) &&
        decide (1 ≤ digitsToNat ds) &&
        decide (digitsToNat ds ≤ daysInMonth (digitsToNat ys) (digitsToNat ms)))
  | _ => false

/-- Models validate_date_iso (main.py lines 115-122) on a Python value: a
falsy value passes; strptime on a non-string raises, which the bare except
turns into False; a nonempty string must parse as YYYY-MM-DD. -/
def validate_date_iso_py (v : PyVal) : Bool :=
  match v with
  | .vStr s => if s = "" then true else isoDateOk s
  | .vInt n => if n = 0 then true else false
  | .vNone => true

/-- Field map handed to validate_partner_row: string values as they come
from a form entry or a CSV cell (absent cells arrive as ""). -/
structure PartnerRow where
  name : String
  tax_id : String
  email : String
  phone : String
  address : String
deriving DecidableEq

/-- Models validate_partner_row (main.py lines 124-133), with the field loop
unrolled in declaration order (name, tax_id, email, phone, address): each
field stripped of whitespace must be nonempty, and a nonempty email must
additionally match the e-mail pattern. -/
def validate_partner_row (row : PartnerRow) : List String :=
  (if pyStrip row.name = "" then ["name is REQUIRED - cannot be empty"] else []) ++
    (if pyStrip row.tax_id = "" then ["tax_id is REQUIRED - cannot be empty"] else []) ++
    (if pyStrip row.email = "" then ["email is REQUIRED - cannot be empty"]
     else if validate_email (pyStrip row.email) = false then ["email format is invalid"]
     else []) ++
    (if pyStrip row.phone = "" then ["phone is REQUIRED - cannot be empty"] else []) ++
    (if pyStrip row.address = "" then ["address is REQUIRED - cannot be empty"] else [])

/-- Field map handed to validate_product_row (string values). -/
structure ProductRow where
  sku : String
  name : String
  description : String
  price : String
  stock : String
deriving DecidableEq

/-- Models validate_product_row (main.py lines 135-146): every field
(sku, name, description, price, stock) stripped of whitespace must be
nonempty; then a truthy (nonempty) price must parse as a float and a truthy
stock as an int. -/
def validate_product_row (row : ProductRow) : List String :=
  (if pyStrip row.sku = "" then ["sku is REQUIRED - cannot be empty"] else []) ++
    (if pyStrip row.name = "" then ["name is REQUIRED - cannot be empty"] else []) ++
    (if pyStrip row.description = "" then ["description is REQUIRED - cannot be empty"] else []) ++
    (if pyStrip row.price = "" then ["price is REQUIRED - cannot be empty"] else []) ++
    (if pyStrip row.stock = "" then ["stock is REQUIRED - cannot be empty"] else []) ++
    (if row.price ≠ "" ∧ is_float row.price = false then ["price must be a valid number"] else []) ++
    (if row.stock ≠ "" ∧ is_int row.stock = false then ["stock must be a valid integer"] else [])

/-- Field map handed to validate_invoice_row (partner_id arrives as a Python
int from the UI parse, the rest as strings). -/
structure InvoiceRow where
  partner_id : PyVal
  invoice_date : PyVal
  due_date : PyVal
  status : PyVal
deriving DecidableEq

/-- Models validate_invoice_row (main.py lines 148-161): the field loop
(partner_id, invoice_date, due_date, status) rejects falsy values as
required; then a truthy partner_id must be an int, and truthy dates must be
YYYY-MM-DD. -/
def validate_invoice_row (row : InvoiceRow) : List String :=
  (if row.partner_id.truthy = false then ["partner_id is REQUIRED - cannot be empty"] else []) ++
    (if row.invoice_date.truthy = false then ["invoice_date is REQUIRED - cannot be empty"] else []) ++
    (if row.due_date.truthy = false then ["due_date is REQUIRED - cannot be empty"] else []) ++
    (if row.status.truthy = false then ["status is REQUIRED - cannot be empty"] else []) ++
    (if row.partner_id.truthy && !row.partner_id.isInstInt then
      ["partner_id must be a valid number"] else []) ++
    (if row.invoice_date.truthy && !(validate_date_iso_py row.invoice_date) then
      ["invoice_date must be YYYY-MM-DD format"] else []) ++
    (if row.due_date.truthy && !(validate_date_iso_py row.due_date) then
      ["due_date must be YYYY-MM-DD format"] else [])

/-- Field map handed to validate_invoice_item_row (ints from the UI parse). -/
structure InvoiceItemRow where
  invoice_id : PyVal
  product_id : PyVal
  quantity : PyVal
deriving DecidableEq

/-- Models validate_invoice_item_row (main.py lines 163-176): the required
loop (invoice_id, product_id, quantity) rejects falsy values; then each
truthy value must be an isinstance int.  Note the quantity check is only an
int-type check, despite its error text. -/
def validate_invoice_item_row (row : InvoiceItemRow) : List String :=
  (if row.invoice_id.truthy = false then ["invoice_id is REQUIRED - cannot be empty"] else []) ++
    (if row.product_id.truthy = false then ["product_id is REQUIRED - cannot be empty"] else []) ++
    (if row.quantity.truthy = false then ["quantity is REQUIRED - cannot be empty"] else []) ++
    (if row.invoice_id.truthy && !row.invoice_id.isInstInt then
      ["invoice_id must be a valid number"] else []) ++
    (if row.product_id.truthy && !row.product_id.isInstInt then
      ["product_id must be a valid number"] else []) ++
    (if row.quantity.truthy && !row.quantity.isInstInt then
      ["quantity must be a positive integer"] else [])

/-- A row of the partners table (main.py lines 20-29): name NOT NULL, the
other columns nullable (the CSV importer inserts empty cells as NULL). -/
structure Partner where
  id : Nat
  name : String
  tax_id : Option String
  email : Option String
  phone : Option String
  address : Option String
deriving DecidableEq

/-- A row of the products table (main.py lines 30-39). -/
structure Product where
  id : Nat
  sku : String
  name : String
  description : String
  price : ℚ
  stock : Int
deriving DecidableEq

/-- A row of the invoices table (main.py lines 40-50): partner_id is
INTEGER NOT NULL with FOREIGN KEY ... ON DELETE SET NULL. -/
structure Invoice where
  id : Nat
  partner_id : Nat
  invoice_date : String
  due_date : Option String
  status : String
  total_amount : ℚ
deriving DecidableEq

/-- A row of the invoice_items table (main.py lines 51-62). -/
structure Item where
  id : Nat
  invoice_id : Nat
  product_id : Nat
  quantity : Int
  unit_price : ℚ
  line_total : ℚ
deriving DecidableEq

/-- The persisted database state: the four tables plus the next AUTOINCREMENT
value of each table that the modelled operations insert into. -/
structure Store where
  partners : List Partner
  products : List Product
  invoices : List Invoice
  items : List Item
  next_partner_id : Nat
  next_product_id : Nat
  next_item_id : Nat
deriving DecidableEq

/-- The freshly initialised database of init_db: empty tables, ids from 1. -/
def emptyStore : Store :=
  { partners := [], products := [], invoices := [], items := []
    next_partner_id := 1, next_product_id := 1, next_item_id := 1 }

/-- Models the query SELECT SUM(line_total) FROM invoice_items WHERE
invoice_id=? combined with the callers' `or 0.0` (main.py lines 800, 821):
the sum over an empty set is 0. -/
def invoice_total_query (s : Store) (inv_id : Nat) : ℚ :=
  ((s.items.filter (fun it => it.invoice_id = inv_id)).map Item.line_total).sum

/-- Models UPDATE invoices SET total_amount=? WHERE id=? (main.py lines
801, 822). -/
def set_invoice_total (s : Store) (inv_id : Nat) (tot : ℚ) : Store :=
  { s with invoices := s.invoices.map (fun inv =>
      if inv.id = inv_id then { inv with total_amount := tot } else inv) }

/-- Models the unit-price resolution of add_item_to_invoice (main.py lines
787-795): the entry text is stripped; when it is empty or not float-parsable
the price is fetched from the referenced product (None aborts the handler),
otherwise the supplied text is used as a float. -/
def resolve_unit_price (s : Store) (pid : Nat) (unitRaw : String) : Option ℚ :=
  let unit := pyStrip unitRaw
  if unit = "" ∨ is_float unit = false then
    (s.products.find? (fun p => p.id = pid)).map Product.price
  else some (pyFloat unit)

/-- Models INSERT INTO invoice_items (invoice_id,product_id,quantity,
unit_price,line_total) VALUES (?,?,?,?,?) (main.py lines 798-799) with
line_total = qty * unit (line 796): the row is appended with the next
AUTOINCREMENT id. -/
def insert_item (s : Store) (inv_id pid : Nat) (qty : Int) (unit : ℚ) : Store :=
  { s with
    items := s.items ++ [⟨s.next_item_id, inv_id, pid, qty, unit, (qty : ℚ) * unit⟩]
    next_item_id := s.next_item_id + 1 }

/-- Models the Add Item handler add_item_to_invoice (main.py lines 756-809)
from the point where invoice id, product id and quantity are parsed: the
item row map is validated; the unit price is resolved; the INSERT must
satisfy the foreign keys on invoices and products (PRAGMA foreign_keys=ON,
line 69) and CHECK(quantity>0) (line 56); then the owning invoice's total is
recomputed from the item sum and persisted.  Every abort path (none) occurs
before any write is committed. -/
def add_item_to_invoice (s : Store) (inv_id pid : Nat) (qty : Int)
    (unitRaw : String) : Option Store :=
  if validate_invoice_item_row ⟨.vInt inv_id, .vInt pid, .vInt qty⟩ ≠ [] then none
  else
    (resolve_unit_price s pid unitRaw).bind (fun unit =>
      if s.invoices.any (fun inv => inv.id = inv_id) = false then none
      else if s.products.any (fun p => p.id = pid) = false then none
      else if decide (0 < qty) = false then none
      else
        let s1 := insert_item s inv_id pid qty unit
        some (set_invoice_total s1 inv_id (invoice_total_query s1 inv_id)))

/-- Models add_item_to_invoice when a failure strikes after the item INSERT
(for instance in the SUM fetch or the total UPDATE, main.py lines 800-801).
Each of execute and fetchone opens its own connection through get_conn,
whose finally-block commits (lines 66-74), so the INSERT of line 798 is
already durably committed and is not rolled back; the handler's except arm
only shows a message (line 808-809).  The store is therefore left with the
item inserted and the invoice total untouched. -/
def add_item_to_invoice_update_fails (s : Store) (inv_id pid : Nat) (qty : Int)
    (unitRaw : String) : Option Store :=
  if validate_invoice_item_row ⟨.vInt inv_id, .vInt pid, .vInt qty⟩ ≠ [] then none
  else
    (resolve_unit_price s pid unitRaw).bind (fun unit =>
      if s.invoices.any (fun inv => inv.id = inv_id) = false then none
      else if s.products.any (fun p => p.id = pid) = false then none
      else if decide (0 < qty) = false then none
      else some (insert_item s inv_id pid qty unit))

/-- Models the Delete Item handler delete_item (main.py lines 812-824): the
selected tree row carries the item's id and its invoice_id as stored in the
database, the item row is deleted, and the owning invoice's total is
recomputed from the remaining item sum. -/
def delete_item (s : Store) (item_id : Nat) : Store :=
  match s.items.find? (fun it => it.id = item_id) with
  | none => s
  | some it =>
    let s1 := { s with items := s.items.filter (fun x => x.id ≠ item_id) }
    set_invoice_total s1 it.invoice_id (invoice_total_query s1 it.invoice_id)

/-- Outcome of a statement executed against the store: the new state, or
the database engine's error message. -/
inductive DbResult
  | ok (s : Store)
  | err (msg : String)
deriving DecidableEq

/-- Models the Delete handler delete_partner (main.py lines 438-447), which
executes DELETE FROM partners WHERE id=?.  The schema declares
invoices.partner_id INTEGER NOT NULL with FOREIGN KEY ... ON DELETE SET NULL
(lines 43, 48) and every connection runs PRAGMA foreign_keys=ON (line 69),
so when some invoice references the partner, SQLite fires the SET NULL
action, which violates the NOT NULL constraint: the DELETE statement aborts
with an IntegrityError and no row changes.  Only an unreferenced partner is
deleted. -/
def delete_partner (s : Store) (pid : Nat) : DbResult :=
  if s.invoices.any (fun inv => inv.partner_id = pid) then
    .err "NOT NULL constraint failed: invoices.partner_id"
  else .ok { s with partners := s.partners.filter (fun p => p.id ≠ pid) }

/-- One user-level item operation on an invoice (the operations of the
consistency claims): Add Item or Delete Item. -/
inductive ItemOp
  | addIt (inv_id pid : Nat) (qty : Int) (unitRaw : String)
  | delIt (item_id : Nat)

/-- Runs one item operation; an Add Item whose handler aborts leaves the
store unchanged (every abort of add_item_to_invoice happens before a
write). -/
def run_item_op (s : Store) : ItemOp → Store
  | .addIt inv_id pid qty u => (add_item_to_invoice s inv_id pid qty u).getD s
  | .delIt item_id => delete_item s item_id

/-- Runs a sequence of item operations left to right. -/
def run_item_ops (s : Store) (ops : List ItemOp) : Store :=
  ops.foldl run_item_op s

/-- The total invariant I1: every invoice's persisted total_amount equals
the sum of line_total over the items that reference it. -/
def totals_ok (s : Store) : Prop :=
  ∀ inv ∈ s.invoices, inv.total_amount = invoice_total_query s inv.id

instance (s : Store) : Decidable (totals_ok s) :=
  decidable_of_iff (∀ inv ∈ s.invoices, inv.total_amount = invoice_total_query s inv.id)
    Iff.rfl

/-- Well-formedness that the AUTOINCREMENT primary key guarantees for the
invoice_items table: item ids are pairwise distinct and below the next
AUTOINCREMENT value. -/
def Store.WF (s : Store) : Prop :=
  (s.items.map Item.id).Nodup ∧ ∀ it ∈ s.items, it.id < s.next_item_id

instance (s : Store) : Decidable s.WF :=
  decidable_of_iff ((s.items.map Item.id).Nodup ∧ ∀ it ∈ s.items, it.id < s.next_item_id)
    Iff.rfl

/-- The partner CSV header accepted without an id column (main.py line 192,
expected_basic of the partner importer). -/
def partners_expected_basic : List String :=
  ["name", "tax_id", "email", "phone", "address"]

/-- The product CSV header accepted without an id column (main.py line 223,
expected_basic of the product importer). -/
def products_expected_basic : List String :=
  ["sku", "name", "description", "price", "stock"]

/-- Result reported by a bulk import: either the single pipeline-level
column-mismatch error (messagebox.showerror followed by return, before any
row is visited), or the per-batch report of accepted rows and the row
errors, each recorded as the 1-based row number paired with its error list
(the source formats each entry as the string "Row {i+1}: {err}"). -/
inductive BatchReport
  | columnMismatch
  | report (added : Nat) (errors : List (Nat × List String))
deriving DecidableEq

/-- Models INSERT INTO partners (name,tax_id,email,phone,address) as issued
by the partner importer (main.py lines 208-210): empty optional cells are
inserted as NULL through the `or None` coercions; a fresh AUTOINCREMENT id
is assigned.  Nothing in the schema can reject this insert. -/
def partner_row_insert (s : Store) (r : PartnerRow) : Store :=
  { s with
    partners := s.partners ++ [⟨s.next_partner_id, r.name,
      if r.tax_id = "" then none else some r.tax_id,
      if r.email = "" then none else some r.email,
      if r.phone = "" then none else some r.phone,
      if r.address = "" then none else some r.address⟩]
    next_partner_id := s.next_partner_id + 1 }

/-- Models the row loop of the partner importer (main.py lines 197-213),
with i the 0-based index of the first row of the remaining batch: a row
failing validation is recorded as (i+1, errors) and the loop continues; a
valid row is inserted and counted. -/
def partners_csv_rows (s : Store) (i : Nat) : List PartnerRow →
    Store × Nat × List (Nat × List String)
  | [] => (s, 0, [])
  | r :: rest =>
    if validate_partner_row r = [] then
      let out := partners_csv_rows (partner_row_insert s r) (i + 1) rest
      (out.1, out.2.1 + 1, out.2.2)
    else
      let out := partners_csv_rows s (i + 1) rest
      (out.1, out.2.1, (i + 1, validate_partner_row r) :: out.2.2)

/-- Models the partner import pipeline (main.py lines 187-216) from the
parsed table onward: the column list must be exactly expected_basic or
expected_with_id (an id column is dropped from each row before validation,
so rows are modelled with the id already stripped); any other column set
aborts the whole batch with the single column-mismatch report; otherwise
the row loop runs. -/
def partners_csv (s : Store) (cols : List String) (rows : List PartnerRow) :
    Store × BatchReport :=
  if cols = partners_expected_basic ∨ cols = "id" :: partners_expected_basic then
    let out := partners_csv_rows s 0 rows
    (out.1, .report out.2.1 out.2.2)
  else (s, .columnMismatch)

/-- The value int(data["stock"] or 0) of the product importer (main.py line
241): an empty stock cell would default to 0. -/
def stock_or_zero (stock : String) : Int :=
  if stock = "" then 0 else pyInt stock

/-- Schema acceptance of INSERT INTO products (main.py lines 239-241):
sku UNIQUE, CHECK(price >= 0), CHECK(stock >= 0); a violation raises and
the importer records a DB row error instead. -/
def product_insert_ok (s : Store) (r : ProductRow) : Bool :=
  !(s.products.any (fun p => p.sku = r.sku)) &&
    decide (0 ≤ pyFloat r.price) && decide (0 ≤ stock_or_zero r.stock)

/-- Models INSERT INTO products (sku,name,description,price,stock) as issued
by the product importer (main.py lines 239-241), with float(price) and
int(stock or 0). -/
def product_row_insert (s : Store) (r : ProductRow) : Store :=
  { s with
    products := s.products ++
      [⟨s.next_product_id, r.sku, r.name, r.description, pyFloat r.price,
        stock_or_zero r.stock⟩]
    next_product_id := s.next_product_id + 1 }

/-- Models the row loop of the product importer (main.py lines 228-244):
validation failures and insert (DB) failures are recorded as
(i+1, errors) and the loop continues; a valid, insertable row is inserted
and counted. -/
def products_csv_rows (s : Store) (i : Nat) : List ProductRow →
    Store × Nat × List (Nat × List String)
  | [] => (s, 0, [])
  | r :: rest =>
    if validate_product_row r = [] then
      if product_insert_ok s r then
        let out := products_csv_rows (product_row_insert s r) (i + 1) rest
        (out.1, out.2.1 + 1, out.2.2)
      else
        let out := products_csv_rows s (i + 1) rest
        (out.1, out.2.1, (i + 1, ["DB constraint violation"]) :: out.2.2)
    else
      let out := products_csv_rows s (i + 1) rest
      (out.1, out.2.1, (i + 1, validate_product_row r) :: out.2.2)

/-- Models the product import pipeline (main.py lines 218-247) from the
parsed table onward, analogous to the partner pipeline. -/
def products_csv (s : Store) (cols : List String) (rows : List ProductRow) :
    Store × BatchReport :=
  if cols = products_expected_basic ∨ cols = "id" :: products_expected_basic then
    let out := products_csv_rows s 0 rows
    (out.1, .report out.2.1 out.2.2)
  else (s, .columnMismatch)

/-- Pairs each list element with its 0-based index starting from i (the
enumeration of the importer row loops). -/
def rowsFrom {α : Type} (i : Nat) : List α → List (Nat × α)
  | [] => []
  | a :: l => (i, a) :: rowsFrom (i + 1) l

/-- The CHECK(quantity>0) constraint of the invoice_items table (main.py
line 56). -/
def item_quantity_check (q : Int) : Bool :=
  decide (0 < q)

/-- Concrete database state for exercising the consistency engine: one
partner, two priced products, one invoice with no items and total 0. -/
def c1_store : Store :=
  { partners := [⟨1, "Acme", some "T1", none, some "1", some "A"⟩]
    products := [⟨1, "SKU1", "Widget", "D", 10, 5⟩, ⟨2, "SKU2", "Gadget", "D", 5, 5⟩]
    invoices := [⟨1, 1, "2024-01-01", none, "Draft", 0⟩]
    items := []
    next_partner_id := 2, next_product_id := 3, next_item_id := 1 }

/-- A concrete operation sequence: add two items to invoice 1, then delete
the first. -/
def c1_ops : List ItemOp :=
  [.addIt 1 1 2 "", .addIt 1 2 1 "", .delIt 1]

/-- Concrete state before an Add Item whose total update fails: one priced
product and one empty invoice. -/
def c2_store : Store :=
  { partners := [⟨1, "Acme", some "T1", none, some "1", some "A"⟩]
    products := [⟨1, "SKU1", "Widget", "D", 10, 5⟩]
    invoices := [⟨1, 1, "2024-01-01", none, "Draft", 0⟩]
    items := []
    next_partner_id := 2, next_product_id := 2, next_item_id := 1 }

/-- The state left behind when adding 2 units of product 1 (price 10) to
invoice 1 of c2_store and the total update step fails: the item row (line
total 20) is committed, the invoice total is still 0. -/
def c2_after : Store :=
  { partners := [⟨1, "Acme", some "T1", none, some "1", some "A"⟩]
    products := [⟨1, "SKU1", "Widget", "D", 10, 5⟩]
    invoices := [⟨1, 1, "2024-01-01", none, "Draft", 0⟩]
    items := [⟨1, 1, 1, 2, 10, 20⟩]
    next_partner_id := 2, next_product_id := 2, next_item_id := 2 }

/-- Concrete state with partner 1 referenced by invoice 1. -/
def c3_store : Store :=
  { partners := [⟨1, "Acme", some "T1", none, some "1", some "A"⟩]
    products := []
    invoices := [⟨1, 1, "2024-01-01", none, "Draft", 0⟩]
    items := []
    next_partner_id := 2, next_product_id := 1, next_item_id := 1 }

/-- Concrete state before an Add Item with no unit price supplied. -/
def c4_store : Store :=
  { partners := [⟨1, "Acme", some "T1", none, some "1", some "A"⟩]
    products := [⟨1, "SKU1", "Widget", "D", 10, 5⟩]
    invoices := [⟨1, 1, "2024-01-01", none, "Draft", 0⟩]
    items := []
    next_partner_id := 2, next_product_id := 2, next_item_id := 1 }

/-- The state after adding 3 units of product 1 (price 10, no unit price
supplied) to invoice 1 of c4_store. -/
def c4_after : Store :=
  { partners := [⟨1, "Acme", some "T1", none, some "1", some "A"⟩]
    products := [⟨1, "SKU1", "Widget", "D", 10, 5⟩]
    invoices := [⟨1, 1, "2024-01-01", none, "Draft", 30⟩]
    items := [⟨1, 1, 1, 3, 10, 30⟩]
    next_partner_id := 2, next_product_id := 2, next_item_id := 2 }

/-- A product CSV row with every field valid except an empty stock cell. -/
def c5_row : ProductRow := ⟨"SKU9", "Widget", "Desc", "1.50", ""⟩

/-- A partner row whose only empty field is the (per spec optional) email. -/
def c6_partner_row : PartnerRow := ⟨"North", "T9", "", "55", "Main 1"⟩

/-- An invoice row whose only falsy field is the (per spec optional)
due_date. -/
def c6_invoice_row : InvoiceRow := ⟨.vInt 1, .vStr "2024-01-01", .vStr "", .vStr "Draft"⟩

/-- A column header that matches neither accepted partner header (first
column renamed). -/
def c7_cols : List String := ["fullname", "tax_id", "email", "phone", "address"]

/-- Five partner CSV rows, the third with an empty name and the rest fully
valid. -/
def c8_rows : List PartnerRow :=
  [⟨"Alice", "T1", "a@x.co", "1", "A1"⟩, ⟨"Bob", "T2", "b@x.co", "2", "A2"⟩,
    ⟨"", "T3", "c@x.co", "3", "A3"⟩, ⟨"Dora", "T4", "d@x.co", "4", "A4"⟩,
    ⟨"Eve", "T5", "e@x.co", "5", "A5"⟩]

/-- The field map of the validation-completeness example: empty name, valid
tax_id, malformed email, valid phone and address. -/
def c9_row : PartnerRow := ⟨"", "X", "bad", "1", "A"⟩

lemma pyStrip_empty : pyStrip "" = "" := by decide

lemma invoice_total_query_set (s : Store) (j k : Nat) (t : ℚ) :
    invoice_total_query (set_invoice_total s j t) k = invoice_total_query s k := rfl

lemma totals_ok_set_total {s : Store} {j : Nat}
    (h : ∀ inv ∈ s.invoices, inv.id ≠ j → inv.total_amount = invoice_total_query s inv.id) :
    totals_ok (set_invoice_total s j (invoice_total_query s j)) := by
  intro inv hin
  rw [invoice_total_query_set]
  simp only [set_invoice_total, List.mem_map] at hin
  rcases hin with ⟨inv0, h0, rfl⟩
  by_cases hid : inv0.id = j
  · simp [hid]
  · simp only [if_neg hid]
    exact h inv0 h0 hid

lemma invoice_total_query_insert_ne (s : Store) (inv_id pid : Nat) (qty : Int) (u : ℚ)
    {k : Nat} (hk : k ≠ inv_id) :
    invoice_total_query (insert_item s inv_id pid qty u) k = invoice_total_query s k := by
  simp only [invoice_total_query, insert_item, List.filter_append]
  have : List.filter (fun it => decide (it.invoice_id = k))
      [⟨s.next_item_id, inv_id, pid, qty, u, (qty : ℚ) * u⟩] = ([] : List Item) := by
    simp [List.filter, Ne.symm hk]
  rw [this, List.append_nil]

lemma add_item_eq_some {s s' : Store} {inv_id pid : Nat} {qty : Int} {u : String}
    (h : add_item_to_invoice s inv_id pid qty u = some s') :
    ∃ q, resolve_unit_price s pid u = some q ∧
      s' = set_invoice_total (insert_item s inv_id pid qty q) inv_id
        (invoice_total_query (insert_item s inv_id pid qty q) inv_id) := by
  unfold add_item_to_invoice at h
  split at h
  · exact absurd h (by simp)
  · rcases Option.bind_eq_some.mp h with ⟨q, hq, h2⟩
    refine ⟨q, hq, ?_⟩
    split at h2
    · exact absurd h2 (by simp)
    · split at h2
      · exact absurd h2 (by simp)
      · split at h2
        · exact absurd h2 (by simp)
        · exact (Option.some.injEq _ _ ▸ h2).symm

lemma add_item_totals {s s' : Store} {inv_id pid : Nat} {qty : Int} {u : String}
    (hok : totals_ok s) (h : add_item_to_invoice s inv_id pid qty u = some s') :
    totals_ok s' := by
  rcases add_item_eq_some h with ⟨q, hq, rfl⟩
  apply totals_ok_set_total
  intro inv hin hne
  rw [invoice_total_query_insert_ne s inv_id pid qty q hne]
  exact hok inv hin

lemma insert_item_WF {s : Store} (h : s.WF) (inv_id pid : Nat) (qty : Int) (u : ℚ) :
    (insert_item s inv_id pid qty u).WF := by
  obtain ⟨h1, h2⟩ := h
  constructor
  · simp only [insert_item, List.map_append, List.map_cons, List.map_nil]
    rw [List.nodup_append]
    refine ⟨h1, List.nodup_singleton _, ?_⟩
    intro a ha hb
    simp only [List.mem_singleton] at hb
    subst hb
    rcases List.mem_map.mp ha with ⟨it, hit, hgot⟩
    exact absurd hgot (Nat.ne_of_lt (h2 it hit))
  · intro it hit
    simp only [insert_item, List.mem_append, List.mem_singleton] at hit
    rcases hit with hit | rfl
    · exact Nat.lt_succ_of_lt (h2 it hit)
    · exact Nat.lt_succ_self _

lemma add_item_WF {s s' : Store} {inv_id pid : Nat} {qty : Int} {u : String}
    (hwf : s.WF) (h : add_item_to_invoice s inv_id pid qty u = some s') : s'.WF := by
  rcases add_item_eq_some h with ⟨q, _, rfl⟩
  exact insert_item_WF hwf inv_id pid qty q

lemma delete_item_WF {s : Store} (hwf : s.WF) (iid : Nat) : (delete_item s iid).WF := by
  unfold delete_item
  obtain ⟨h1, h2⟩ := hwf
  cases hf : s.items.find? (fun it => it.id = iid) with
  | none => exact ⟨h1, h2⟩
  | some it =>
    refine ⟨?_, ?_⟩
    · exact List.Nodup.sublist (List.Sublist.map Item.id (List.filter_sublist s.items)) h1
    · intro x hx
      exact h2 x (List.mem_of_mem_filter hx)

lemma delete_item_totals {s : Store} (hwf : s.WF) (hok : totals_ok s) (iid : Nat) :
    totals_ok (delete_item s iid) := by
  unfold delete_item
  cases hf : s.items.find? (fun it => it.id = iid) with
  | none => exact hok
  | some it =>
    have hmem : it ∈ s.items := List.mem_of_find?_eq_some hf
    have hid : it.id = iid := by simpa using List.find?_some hf
    apply totals_ok_set_total
    intro inv hin hne
    have hbase : inv.total_amount = invoice_total_query s inv.id := hok inv hin
    rw [hbase]
    simp only [invoice_total_query]
    congr 1
    rw [List.filter_filter]
    apply congrArg (List.map Item.line_total)
    apply List.filter_congr
    intro x hx
    by_cases hinv : x.invoice_id = inv.id
    · have hxid : x.id ≠ iid := by
        intro hxe
        have hxit : x = it :=
          List.inj_on_of_nodup_map hwf.1 hx hmem (by rw [hxe, hid])
        exact hne (by rw [← hinv, hxit])
      simp [hinv, hxid]
    · simp [hinv]

lemma run_item_op_preserves {s : Store} (h : s.WF ∧ totals_ok s) (op : ItemOp) :
    (run_item_op s op).WF ∧ totals_ok (run_item_op s op) := by
  cases op with
  | addIt inv_id pid qty u =>
    show ((add_item_to_invoice s inv_id pid qty u).getD s).WF ∧
      totals_ok ((add_item_to_invoice s inv_id pid qty u).getD s)
    cases ha : add_item_to_invoice s inv_id pid qty u with
    | none => simpa using h
    | some s' =>
      simp only [Option.getD_some]
      exact ⟨add_item_WF h.1 ha, add_item_totals h.2 ha⟩
  | delIt iid =>
    exact ⟨delete_item_WF h.1 iid, delete_item_totals h.1 h.2 iid⟩

lemma run_item_ops_preserves {s : Store} (h : s.WF ∧ totals_ok s) (ops : List ItemOp) :
    (run_item_ops s ops).WF ∧ totals_ok (run_item_ops s ops) := by
  induction ops generalizing s with
  | nil => exact h
  | cons op rest ih =>
    unfold run_item_ops at ih ⊢
    rw [List.foldl_cons]
    exact ih (run_item_op_preserves h op)

lemma add_item_update_fails_eq_some {s s' : Store} {inv_id pid : Nat} {qty : Int}
    {u : String} (h : add_item_to_invoice_update_fails s inv_id pid qty u = some s') :
    ∃ q, resolve_unit_price s pid u = some q ∧ s' = insert_item s inv_id pid qty q := by
  unfold add_item_to_invoice_update_fails at h
  split at h
  · exact absurd h (by simp)
  · rcases Option.bind_eq_some.mp h with ⟨q, hq, h2⟩
    refine ⟨q, hq, ?_⟩
    split at h2
    · exact absurd h2 (by simp)
    · split at h2
      · exact absurd h2 (by simp)
      · split at h2
        · exact absurd h2 (by simp)
        · exact (Option.some.injEq _ _ ▸ h2).symm

lemma partners_csv_rows_eq (rows : List PartnerRow) :
    ∀ (s : Store) (i : Nat),
      partners_csv_rows s i rows =
        ((rows.filter (fun r => decide (validate_partner_row r = []))).foldl
            partner_row_insert s,
          rows.countP (fun r => decide (validate_partner_row r = [])),
          (rowsFrom i rows).filterMap (fun p =>
            if validate_partner_row p.2 = [] then none
            else some (p.1 + 1, validate_partner_row p.2))) := by
  induction rows with
  | nil => intro s i; simp [partners_csv_rows, rowsFrom]
  | cons r rest ih =>
    intro s i
    by_cases hv : validate_partner_row r = []
    · simp [partners_csv_rows, rowsFrom, hv, ih]
    · simp [partners_csv_rows, rowsFrom, hv, ih]

/-- C1: for every invoice of a well-formed store whose totals satisfy the
invariant (as the freshly initialised and maintained database does), after
any sequence of completed add-item and delete-item operations the persisted
total_amount equals the sum of line_total over the items currently
belonging to that invoice, and equals 0 when the invoice has no items. -/
theorem add_delete_total_invariant (s : Store) (ops : List ItemOp)
    (hwf : s.WF) (hok : totals_ok s) :
    totals_ok (run_item_ops s ops) ∧
      ∀ inv ∈ (run_item_ops s ops).invoices,
        (run_item_ops s ops).items.filter (fun it => it.invoice_id = inv.id) = [] →
          inv.total_amount = 0 := by
  have h := run_item_ops_preserves ⟨hwf, hok⟩ ops
  refine ⟨h.2, ?_⟩
  intro inv hin hemp
  rw [h.2 inv hin, invoice_total_query, hemp]
  simp

/-- Witness for C1: the invariant and zero-items consequence hold concretely
after adding two items to invoice 1 of c1_store and deleting the first. -/
theorem add_delete_total_invariant_witness :
    c1_store.WF ∧ totals_ok c1_store ∧
      (totals_ok (run_item_ops c1_store c1_ops) ∧
        ∀ inv ∈ (run_item_ops c1_store c1_ops).invoices,
          (run_item_ops c1_store c1_ops).items.filter
              (fun it => it.invoice_id = inv.id) = [] →
            inv.total_amount = 0) :=
  ⟨by decide, by decide, add_delete_total_invariant c1_store c1_ops (by decide) (by decide)⟩

/-- C2 counterexample: when the total update step of the Add Item handler
fails after the item INSERT, the store is not rolled back to its previous
state — the item row (line total 20) is committed while invoice 1 still
carries total_amount 0, differing from its item sum 20.  This refutes the
claim that the whole operation is rolled back and no invoice is left with a
stale total. -/
theorem add_item_no_rollback_counterexample :
    add_item_to_invoice_update_fails c2_store 1 1 2 "" = some c2_after ∧
      c2_after ≠ c2_store ∧
      c2_after.invoices.map Invoice.total_amount = [0] ∧
      invoice_total_query c2_after 1 = 20 := by
  refine ⟨?_, by decide, by decide, ?_⟩
  · norm_num [add_item_to_invoice_update_fails, resolve_unit_price, insert_item,
      c2_store, c2_after, pyStrip_empty, is_float, floatBody,
      validate_invoice_item_row, PyVal.truthy, PyVal.isInstInt, List.find?]
  · norm_num [invoice_total_query, c2_after, List.filter]

/-- C2 as amended: each step of add-item commits in its own transaction
(get_conn commits per call), so a failure after the item insert leaves the
store changed — the new item row persisted, every invoice row (hence the
owning invoice's total_amount) untouched — and the owning invoice's item
sum grown by the new line total, i.e. the total is stale, not rolled
back. -/
theorem add_item_stale_total (s s' : Store) (inv_id pid : Nat) (qty : Int)
    (u : String) (h : add_item_to_invoice_update_fails s inv_id pid qty u = some s') :
    s' ≠ s ∧ s'.invoices = s.invoices ∧
      ∃ q, resolve_unit_price s pid u = some q ∧
        s'.items = s.items ++ [⟨s.next_item_id, inv_id, pid, qty, q, (qty : ℚ) * q⟩] ∧
        invoice_total_query s' inv_id = invoice_total_query s inv_id + (qty : ℚ) * q := by
  rcases add_item_update_fails_eq_some h with ⟨q, hq, rfl⟩
  refine ⟨?_, rfl, q, hq, rfl, ?_⟩
  · intro he
    have : (insert_item s inv_id pid qty q).items.length = s.items.length := by rw [he]
    simp [insert_item] at this
  · simp only [invoice_total_query, insert_item, List.filter_append]
    have : List.filter (fun it : Item => decide (it.invoice_id = inv_id))
        ([⟨s.next_item_id, inv_id, pid, qty, q, (qty : ℚ) * q⟩] : List Item) =
        ([⟨s.next_item_id, inv_id, pid, qty, q, (qty : ℚ) * q⟩] : List Item) := by
      simp [List.filter]
    rw [this, List.map_append, List.sum_append]
    simp

/-- Witness for the amended C2 at the concrete failure of c2_store. -/
theorem add_item_stale_total_witness :
    c2_after ≠ c2_store ∧ c2_after.invoices = c2_store.invoices ∧
      ∃ q, resolve_unit_price c2_store 1 "" = some q ∧
        c2_after.items = c2_store.items ++
          [⟨c2_store.next_item_id, 1, 1, 2, q, (2 : ℚ) * q⟩] ∧
        invoice_total_query c2_after 1 = invoice_total_query c2_store 1 + (2 : ℚ) * q :=
  add_item_stale_total c2_store c2_after 1 1 2 ""
    (by norm_num [add_item_to_invoice_update_fails, resolve_unit_price, insert_item,
      c2_store, c2_after, pyStrip_empty, is_float, floatBody,
      validate_invoice_item_row, PyVal.truthy, PyVal.isInstInt, List.find?])

/-- C3: deleting partner 1, which invoice 1 references, does not succeed
with the reference cleared — the DELETE aborts with the NOT NULL
constraint failure that the ON DELETE SET NULL action triggers on
invoices.partner_id, and no DbResult.ok state is produced. -/
theorem delete_partner_referenced_aborts :
    c3_store.invoices.map Invoice.partner_id = [1] ∧
      delete_partner c3_store 1 =
        DbResult.err "NOT NULL constraint failed: invoices.partner_id" ∧
      ∀ r : Store, delete_partner c3_store 1 ≠ DbResult.ok r := by
  refine ⟨by decide, by decide, ?_⟩
  intro r hr
  rw [show delete_partner c3_store 1 =
    DbResult.err "NOT NULL constraint failed: invoices.partner_id" from by decide] at hr
  exact absurd hr (by simp)

/-- C4: every item persisted by a completed Add Item carries
line_total = quantity * unit_price exactly, where unit_price is the
supplied entry text parsed as a float when that text is a nonempty numeric
string, and otherwise (empty or non-numeric) the current price of the
referenced product. -/
theorem line_total_derivation (s s' : Store) (inv_id pid : Nat) (qty : Int)
    (u : String) (h : add_item_to_invoice s inv_id pid qty u = some s') :
    ∃ it : Item, s'.items.getLast? = some it ∧ it.quantity = qty ∧
      it.line_total = (qty : ℚ) * it.unit_price ∧
      ((pyStrip u ≠ "" ∧ is_float (pyStrip u) = true ∧ it.unit_price = pyFloat (pyStrip u)) ∨
        ((pyStrip u = "" ∨ is_float (pyStrip u) = false) ∧
          ∃ p, p ∈ s.products ∧ p.id = pid ∧ it.unit_price = p.price)) := by
  rcases add_item_eq_some h with ⟨q, hq, rfl⟩
  refine ⟨⟨s.next_item_id, inv_id, pid, qty, q, (qty : ℚ) * q⟩, ?_, rfl, rfl, ?_⟩
  · show ((insert_item s inv_id pid qty q).items).getLast? = _
    simp only [insert_item]
    exact List.getLast?_concat _
  · unfold resolve_unit_price at hq
    by_cases hb : pyStrip u = "" ∨ is_float (pyStrip u) = false
    · right
      refine ⟨hb, ?_⟩
      rw [if_pos hb] at hq
      rcases Option.map_eq_some'.mp hq with ⟨p, hp, hpq⟩
      exact ⟨p, List.mem_of_find?_eq_some hp, by simpa using List.find?_some hp, hpq.symm⟩
    · left
      push_neg at hb
      rw [if_neg (by tauto)] at hq
      have hqv : q = pyFloat (pyStrip u) := by simpa using hq.symm
      exact ⟨hb.1, by simpa using hb.2, hqv⟩

/-- Witness for C4: adding 3 units of product 1 (price 10) with an empty
unit-price entry stores line_total 30 = 3 * 10 with the price resolved from
the product. -/
theorem line_total_derivation_witness :
    ∃ it : Item, c4_after.items.getLast? = some it ∧ it.quantity = 3 ∧
      it.line_total = (3 : ℚ) * it.unit_price ∧
      ((pyStrip "" ≠ "" ∧ is_float (pyStrip "") = true ∧ it.unit_price = pyFloat (pyStrip "")) ∨
        ((pyStrip "" = "" ∨ is_float (pyStrip "") = false) ∧
          ∃ p, p ∈ c4_store.products ∧ p.id = 1 ∧ it.unit_price = p.price)) :=
  line_total_derivation c4_store c4_after 1 1 3 ""
    (by norm_num [add_item_to_invoice, resolve_unit_price, insert_item, set_invoice_total,
      invoice_total_query, c4_store, c4_after, pyStrip_empty, is_float, floatBody,
      validate_invoice_item_row, PyVal.truthy, PyVal.isInstInt, List.find?])

/-- C5 counterexample: the product row with an empty stock cell and all
other fields valid is not accepted with stock defaulting to 0 — the
validator returns the stock-required error, and importing the one-row batch
accepts 0 rows, records exactly that row error, and persists nothing. -/
theorem empty_stock_rejected_counterexample :
    validate_product_row c5_row = ["stock is REQUIRED - cannot be empty"] ∧
      products_csv emptyStore products_expected_basic [c5_row] =
        (emptyStore, BatchReport.report 0 [(1, ["stock is REQUIRED - cannot be empty"])]) := by
  decide

/-- C5 as amended: a product row whose stock field is empty is rejected by
validate_product_row with the stock-required error and is not persisted by
the import pipeline; the stock default of int(stock or 0) in the insert
never applies to it. -/
theorem empty_stock_rejected (row : ProductRow) (h : row.stock = "") :
    "stock is REQUIRED - cannot be empty" ∈ validate_product_row row ∧
      ∀ s : Store, products_csv s products_expected_basic [row] =
        (s, BatchReport.report 0 [(1, validate_product_row row)]) := by
  have hmem : "stock is REQUIRED - cannot be empty" ∈ validate_product_row row := by
    simp [validate_product_row, h, pyStrip_empty]
  refine ⟨hmem, ?_⟩
  intro s
  have hne : validate_product_row row ≠ [] := List.ne_nil_of_mem hmem
  simp [products_csv, products_csv_rows, hne]

/-- Witness for the amended C5 at the concrete row c5_row. -/
theorem empty_stock_rejected_witness :
    c5_row.stock = "" ∧
      ("stock is REQUIRED - cannot be empty" ∈ validate_product_row c5_row ∧
        ∀ s : Store, products_csv s products_expected_basic [c5_row] =
          (s, BatchReport.report 0 [(1, validate_product_row c5_row)])) :=
  ⟨by decide, empty_stock_rejected c5_row (by decide)⟩

/-- C6 counterexample: with every other field valid, an empty email yields
the error list ["email is REQUIRED - cannot be empty"] from the partner
validator and an empty due_date yields ["due_date is REQUIRED - cannot be
empty"] from the invoice validator — not the empty error list the claim
demands for optional fields. -/
theorem optional_fields_required_counterexample :
    validate_partner_row c6_partner_row = ["email is REQUIRED - cannot be empty"] ∧
      validate_invoice_row c6_invoice_row = ["due_date is REQUIRED - cannot be empty"] := by
  decide

/-- C6 as amended: the validators treat email and due_date as required.
For every partner field map whose other fields are non-empty, an empty
email yields exactly the email-required error; for every invoice field map
whose other fields are truthy and well-formed, an empty due_date yields
exactly the due-date-required error. -/
theorem optional_fields_required_errors (pr : PartnerRow) (ir : InvoiceRow)
    (h1 : pyStrip pr.name ≠ "") (h2 : pyStrip pr.tax_id ≠ "")
    (h3 : pyStrip pr.email = "") (h4 : pyStrip pr.phone ≠ "")
    (h5 : pyStrip pr.address ≠ "")
    (h6 : ir.partner_id.truthy = true) (h7 : ir.partner_id.isInstInt = true)
    (h8 : ir.invoice_date.truthy = true)
    (h9 : validate_date_iso_py ir.invoice_date = true)
    (h10 : ir.due_date = PyVal.vStr "") (h11 : ir.status.truthy = true) :
    validate_partner_row pr = ["email is REQUIRED - cannot be empty"] ∧
      validate_invoice_row ir = ["due_date is REQUIRED - cannot be empty"] := by
  constructor
  · simp [validate_partner_row, h1, h2, h3, h4, h5]
  · have hd : (PyVal.vStr "").truthy = false := by decide
    simp [validate_invoice_row, h6, h7, h8, h9, h10, h11, hd]

/-- Witness for the amended C6 at the concrete rows. -/
theorem optional_fields_required_errors_witness :
    pyStrip c6_partner_row.name ≠ "" ∧ pyStrip c6_partner_row.email = "" ∧
      (validate_partner_row c6_partner_row = ["email is REQUIRED - cannot be empty"] ∧
        validate_invoice_row c6_invoice_row = ["due_date is REQUIRED - cannot be empty"]) :=
  ⟨by decide, by decide,
    optional_fields_required_errors c6_partner_row c6_invoice_row (by decide) (by decide)
      (by decide) (by decide) (by decide) (by decide) (by decide) (by decide) (by decide)
      (by decide) (by decide)⟩

/-- C7: a bulk import whose column list is neither the entity's natural
field list nor that list prefixed with "id" is rejected as a whole before
any row is validated or persisted — the store is returned unchanged with
the single pipeline-level column-mismatch report, for the partner and the
product importer alike, whatever rows the batch holds. -/
theorem column_mismatch_rejects_batch (s : Store) (cols1 cols2 : List String)
    (prows : List PartnerRow) (qrows : List ProductRow)
    (h1 : cols1 ≠ partners_expected_basic) (h2 : cols1 ≠ "id" :: partners_expected_basic)
    (h3 : cols2 ≠ products_expected_basic) (h4 : cols2 ≠ "id" :: products_expected_basic) :
    partners_csv s cols1 prows = (s, BatchReport.columnMismatch) ∧
      products_csv s cols2 qrows = (s, BatchReport.columnMismatch) := by
  constructor
  · simp [partners_csv, h1, h2]
  · simp [products_csv, h3, h4]

/-- Witness for C7 at the concrete header c7_cols with nonempty batches. -/
theorem column_mismatch_rejects_batch_witness :
    c7_cols ≠ partners_expected_basic ∧ c7_cols ≠ "id" :: partners_expected_basic ∧
      (partners_csv emptyStore c7_cols [⟨"Alice", "T1", "a@x.co", "1", "A1"⟩] =
          (emptyStore, BatchReport.columnMismatch) ∧
        products_csv emptyStore c7_cols [⟨"S1", "N", "D", "1", "2"⟩] =
          (emptyStore, BatchReport.columnMismatch)) :=
  ⟨by decide, by decide,
    column_mismatch_rejects_batch emptyStore c7_cols c7_cols
      [⟨"Alice", "T1", "a@x.co", "1", "A1"⟩] [⟨"S1", "N", "D", "1", "2"⟩]
      (by decide) (by decide) (by decide) (by decide)⟩

/-- C8: the partner import has row-level success semantics — for every
batch, the accepted count equals the number of rows passing validation,
every valid row is persisted in order through the partner insert, each
invalid row is recorded as its 1-based row number with its error list
without aborting the batch; concretely, the 5-row batch c8_rows whose third
row has an empty name yields accepted count 4 and exactly the one error
entry for row 3. -/
theorem csv_import_row_semantics :
    (∀ (s : Store) (rows : List PartnerRow),
      partners_csv s partners_expected_basic rows =
        ((rows.filter (fun r => decide (validate_partner_row r = []))).foldl
            partner_row_insert s,
          BatchReport.report
            (rows.countP (fun r => decide (validate_partner_row r = [])))
            ((rowsFrom 0 rows).filterMap (fun p =>
              if validate_partner_row p.2 = [] then none
              else some (p.1 + 1, validate_partner_row p.2))))) ∧
      (partners_csv emptyStore partners_expected_basic c8_rows).2 =
        BatchReport.report 4 [(3, ["name is REQUIRED - cannot be empty"])] := by
  constructor
  · intro s rows
    simp [partners_csv, partners_csv_rows_eq]
  · decide

/-- C9: the partner validator on the field map with empty name, tax_id "X",
email "bad", phone "1" and address "A" returns exactly the two errors:
name required and email format invalid. -/
theorem partner_validation_two_errors :
    validate_partner_row c9_row =
      ["name is REQUIRED - cannot be empty", "email format is invalid"] := by decide

/-- C10: the invoice-item validator accepts any row whose invoice_id and
product_id are positive ints and whose quantity is a negative int — the
error list is empty — while the storage CHECK(quantity>0) constraint is the
one that rejects such a quantity. -/
theorem negative_quantity_passes_validation (a b q : Int)
    (ha : 0 < a) (hb : 0 < b) (hq : q < 0) :
    validate_invoice_item_row ⟨.vInt a, .vInt b, .vInt q⟩ = [] ∧
      item_quantity_check q = false := by
  constructor
  · have ha' : (a != 0) = true := by simp [bne_iff_ne]; omega
    have hb' : (b != 0) = true := by simp [bne_iff_ne]; omega
    have hq' : (q != 0) = true := by simp [bne_iff_ne]; omega
    simp [validate_invoice_item_row, PyVal.truthy, PyVal.isInstInt, ha', hb', hq']
  · simp only [item_quantity_check, decide_eq_false_iff_not]
    omega

/-- Witness for C10 at invoice_id 1, product_id 1, quantity -1. -/
theorem negative_quantity_passes_validation_witness :
    (0 : Int) < 1 ∧ (0 : Int) < 1 ∧ (-1 : Int) < 0 ∧
      (validate_invoice_item_row ⟨.vInt 1, .vInt 1, .vInt (-1)⟩ = [] ∧
        item_quantity_check (-1) = false) :=
  ⟨by decide, by decide, by decide,
    negative_quantity_passes_validation 1 1 (-1) (by decide) (by decide) (by decide)⟩
